import Mathlib

/-!
Shallow embedding of the SFTP-to-S3 sync engine
(`src/lambda/sftp-to-s3-handler.ts`, `src/src/lib/idempotency.ts`,
`src/src/lib/s3Writer.ts`) and proofs of the specification claims.

Buffers are modelled as lists of bytes (`List Nat`), JavaScript promises
that may reject as `Except`-valued computations, and the external AWS /
SFTP / zlib collaborators as function parameters, so that the repository's
own control flow (branching, try/catch, counters) is embedded faithfully.
-/

namespace SftpToS3

/-- Byte buffers (Node `Buffer`) are lists of byte values. -/
abbrev Buffer := List Nat

/-- Error values thrown by the handler's custom error classes
(`SftpError`, `S3Error`, `CompressionError`) or by other causes. -/
inductive Err where
  | sftpError (msg : String)
  | s3Error (msg : String)
  | compressionError (msg : String)
  | otherError (msg : String)
deriving DecidableEq, Repr

/-- Directory entry returned by `ssh2-sftp-client`'s `list`: a name and a
type character (regular file entries have type character, a dash). -/
structure FileInfo where
  name : String
  type : Char
deriving DecidableEq, Repr

/-- The handler's `UploadableFile`: a buffer and a target name. -/
structure UploadableFile where
  buffer : Buffer
  name : String
deriving DecidableEq, Repr

/-- The handler's `ProcessingResult` summary record. -/
structure ProcessingResult where
  success : Bool
  message : String
  processedFiles : Nat
  skippedFiles : Nat
deriving DecidableEq, Repr

/-- JavaScript string `<` : lexicographic comparison of code units.
Embedded over the character lists of the two strings. -/
def jsLtChars : List Char → List Char → Bool
  | [], [] => false
  | [], _ :: _ => true
  | _ :: _, [] => false
  | a :: as, b :: bs =>
    if a.val < b.val then true
    else if b.val < a.val then false
    else jsLtChars as bs

/-- JavaScript string `<=` used in `fileTimestamp <= latestS3Timestamp`:
`s <= t` iff not `t < s`. -/
def jsLeString (s t : String) : Bool := !(jsLtChars t.data s.data)

/-- Attempt to match `UsageAcct(\d{12})\.csv` at the head of the character
list, returning the captured 12-digit token. -/
def matchPatternAt (cs : List Char) : Option String :=
  let pre := "UsageAcct".data
  if pre.isPrefixOf cs then
    let rest := cs.drop pre.length
    let digits := rest.take 12
    if digits.length = 12 && digits.all Char.isDigit &&
        ".csv".data.isPrefixOf (rest.drop 12) then
      some (String.mk digits)
    else none
  else none

/-- Leftmost match of the unanchored regular expression
`UsageAcct(\d{12})\.csv`, as `RegExp.exec` finds it: try each start
position left to right. -/
def searchPattern : List Char → Option String
  | [] => none
  | c :: cs =>
    match matchPatternAt (c :: cs) with
    | some t => some t
    | none => searchPattern cs

/-- Embeds `FileProcessor.extractTimestamp`: the first capture of
`FILENAME_PATTERN = /UsageAcct(\d{12})\.csv/` on the filename, or `null`. -/
def extractTimestamp (filename : String) : Option String :=
  searchPattern filename.data

/-- Embeds `FileProcessor.isMatchingFilename`: `FILENAME_PATTERN.test`. -/
def isMatchingFilename (filename : String) : Bool :=
  (extractTimestamp filename).isSome

/-- Embeds `FileProcessor.hasGzipMagicHeader`: the buffer has length at
least two and begins with bytes `0x1f 0x8b`; short-circuit `&&` means the
indexing is guarded by the length check. -/
def hasGzipMagicHeader (buffer : Buffer) : Bool :=
  decide (buffer.length ≥ 2) && buffer.getD 0 0 == 0x1f && buffer.getD 1 0 == 0x8b

/-- JavaScript `String.prototype.endsWith`, over character lists. -/
def jsEndsWith (s suffix : String) : Bool :=
  suffix.data.isSuffixOf s.data

/-- JavaScript `s.slice(0, -n)` for `0 < n`: all but the last `n` code
units. -/
def jsSliceDropRight (s : String) (n : Nat) : String :=
  String.mk (s.data.take (s.data.length - n))

/-- Embeds `FileProcessor.removeSuffix` on the branch where the caller
supplies an explicit suffix (both call sites pass `".gz"`; the
`path.extname` default branch is never exercised by them). Mirrors
JavaScript `filename.slice(0, -suffix.length)`, where a zero-length suffix
yields `slice(0, 0) = ""`. -/
def removeSuffix (filename : String) (suffix : String) : String :=
  if jsEndsWith filename suffix then
    if suffix.length = 0 then "" else jsSliceDropRight filename suffix.length
  else filename

/-- Entry of an archive opened by `unzipper.Open.buffer`: its `type`
string and the result of `entry.buffer()` (which may itself reject). -/
structure ZipEntry where
  type : String
  content : Except String Buffer

/-- Embeds `FileProcessor.validateAndDecompressGzipBuffer`.
`gunzip` and `unzipOpen` are the external zlib / unzipper collaborators,
passed as parameters; their failures are the exceptions the source
catches and rewraps as `CompressionError`. -/
def validateAndDecompressGzipBuffer
    (gunzip : Buffer → Except String Buffer)
    (unzipOpen : Buffer → Except String (List ZipEntry))
    (buffer : Buffer) (fileName : String) : Except Err UploadableFile :=
  if ¬ jsEndsWith fileName ".gz" then
    .ok ⟨buffer, fileName⟩
  else if hasGzipMagicHeader buffer then
    match gunzip buffer with
    | .ok decompressedBuffer =>
      .ok ⟨decompressedBuffer, removeSuffix fileName ".gz"⟩
    | .error e =>
      .error (.compressionError ("Gzip decompression failed for " ++ fileName ++ ": " ++ e))
  else
    match unzipOpen buffer with
    | .error e =>
      .error (.compressionError ("ZIP decompression failed for " ++ fileName ++ ": " ++ e))
    | .ok files =>
      match files.find? (fun entry => entry.type == "File") with
      | none =>
        .error (.compressionError ("ZIP decompression failed for " ++ fileName ++
          ": " ++ ("No file entries found in ZIP for " ++ fileName)))
      | some fileEntry =>
        match fileEntry.content with
        | .ok content => .ok ⟨content, removeSuffix fileName ".gz"⟩
        | .error e =>
          .error (.compressionError ("ZIP decompression failed for " ++ fileName ++ ": " ++ e))

/-- External collaborators of a run, as the handler uses them:
`connect`, `list`, the S3 latest-file query, per-path download, zlib
gunzip, unzipper open, per-file upload, and the raw `sftp.end()` call
(the one `SftpService.disconnect` wraps in a try/catch). -/
structure Services where
  connect : Except Err Unit
  listFiles : String → Except Err (List FileInfo)
  getLatestFile : Except Err (Option String)
  downloadFile : String → Except Err Buffer
  gunzip : Buffer → Except String Buffer
  unzipOpen : Buffer → Except String (List ZipEntry)
  uploadFile : UploadableFile → Except Err Unit
  disconnectEnd : Except String Unit

/-- Embeds `SftpService.disconnect`: `sftp.end()` failures are caught and
only logged (`console.warn`), so disconnect returns normally either way;
the Boolean records whether the underlying `end` succeeded. -/
def sftpServiceDisconnect (svc : Services) : Bool :=
  match svc.disconnectEnd with
  | .ok _ => true
  | .error _ => false

/-- Per-file outcome of one iteration of the `files.map` closure in
`SftpToS3Processor.processFiles`:
the silent early return for non-regular entries, the counted skip with
its `console.log` line, a successful upload with its log line, or a
caught failure with the file's name and the thrown error
(the `console.error` in the per-file catch). -/
inductive FileOutcome where
  | nonFile
  | skipped (logMsg : String)
  | processed (logMsg : String)
  | failed (name : String) (e : Err)
deriving DecidableEq, Repr

/-- Embeds the skip condition
`!fileTimestamp || (latestS3Timestamp && fileTimestamp <= latestS3Timestamp)`
of `SftpToS3Processor.processFiles` (JavaScript truthiness on the two
nullable strings; the `<=` is JavaScript string comparison). -/
def shouldSkip (fileTimestamp latestS3Timestamp : Option String) : Bool :=
  match fileTimestamp, latestS3Timestamp with
  | none, _ => true
  | some t, some w => jsLeString t w
  | some _, none => false

/-- Embeds one iteration of the `files.map(async (file) => ...)` closure
of `SftpToS3Processor.processFiles`, for a given latest-S3 timestamp. -/
def processOneFile (svc : Services) (sftpDir : String)
    (latestS3Timestamp : Option String) (file : FileInfo) : FileOutcome :=
  if file.type ≠ '-' then .nonFile
  else
    if shouldSkip (extractTimestamp file.name) latestS3Timestamp then
      .skipped ("Skipping file " ++ file.name ++ " - older than latest S3 file")
    else
      match svc.downloadFile (sftpDir ++ "/" ++ file.name) with
      | .error e => .failed file.name e
      | .ok fileBuffer =>
        match validateAndDecompressGzipBuffer svc.gunzip svc.unzipOpen fileBuffer file.name with
        | .error e => .failed file.name e
        | .ok fileToUpload =>
          match svc.uploadFile fileToUpload with
          | .error e => .failed file.name e
          | .ok _ =>
            .processed ("Successfully uploaded " ++ fileToUpload.name ++ " to S3")

/-- Number of `processedFiles++` increments over a list of outcomes. -/
def countProcessed (os : List FileOutcome) : Nat :=
  (os.filter fun o => match o with | .processed _ => true | _ => false).length

/-- Number of `skippedFiles++` increments over a list of outcomes. -/
def countSkipped (os : List FileOutcome) : Nat :=
  (os.filter fun o => match o with | .skipped _ => true | _ => false).length

/-- Number of per-file failures caught by the per-file catch block. -/
def countFailed (os : List FileOutcome) : Nat :=
  (os.filter fun o => match o with | .failed _ _ => true | _ => false).length

/-- Observable events of a run: the directory a `list` call was issued
on, and the final disconnect with the underlying `end`'s success bit. -/
inductive Event where
  | listCalled (dir : String)
  | disconnected (endOk : Bool)
deriving DecidableEq, Repr

/-- Result of a run of `SftpToS3Processor.processFiles`: the returned or
thrown value, the event trace, and the list of per-file outcomes. -/
structure RunTrace where
  result : Except Err ProcessingResult
  events : List Event
  outcomes : List FileOutcome
deriving Repr

/-- Embeds `SftpToS3Processor.processFiles`: connect, list, query the
latest S3 key, run the per-file closures, and in every case (the
`finally` block) disconnect last. The per-file closures only race on
counter increments, which commute, so the concurrent `Promise.all` is
embedded as a map in listing order. -/
def processFiles (svc : Services) (sftpDir : String) : RunTrace :=
  let discEvent := Event.disconnected (sftpServiceDisconnect svc)
  match svc.connect with
  | .error e => ⟨.error e, [discEvent], []⟩
  | .ok _ =>
    match svc.listFiles sftpDir with
    | .error e => ⟨.error e, [.listCalled sftpDir, discEvent], []⟩
    | .ok files =>
      match svc.getLatestFile with
      | .error e => ⟨.error e, [.listCalled sftpDir, discEvent], []⟩
      | .ok latestS3File =>
        let latestS3Timestamp := latestS3File.bind extractTimestamp
        let outcomes := files.map (processOneFile svc sftpDir latestS3Timestamp)
        ⟨.ok ⟨true, "Files processed successfully",
              countProcessed outcomes, countSkipped outcomes⟩,
         [.listCalled sftpDir, discEvent], outcomes⟩

/-- The ledger's retention window, `TTL_DAYS` in `idempotency.ts`. -/
def TTL_DAYS : Nat := 90

/-- Embeds `checkIdempotency` from `src/src/lib/idempotency.ts`.
`tableName` is `process.env.DDB_TABLE`; `send` is the DynamoDB `GetItem`
call, returning whether an item is present or failing. A missing table
falls back to `false`; a failed lookup is caught, logged, and returns
`false`. The `Except` result records whether the function itself can
reject. -/
def checkIdempotency (tableName : Option String)
    (send : String → String → Int → Except String (Option Unit))
    (path : String) (mtime : Int) : Except String Bool :=
  match tableName with
  | none => .ok false
  | some table =>
    match send table path mtime with
    | .ok item => .ok item.isSome
    | .error _ => .ok false

/-- Embeds `markProcessed` from `src/src/lib/idempotency.ts`.
`put` is the DynamoDB `PutItem` call, taking table, path, mtime,
processedAt and expiresAt; its failure is caught, logged, and swallowed. -/
def markProcessed (tableName : Option String)
    (put : String → String → Int → Int → Int → Except String Unit)
    (path : String) (mtime : Int) (now : Int) : Except String Unit :=
  match tableName with
  | none => .ok ()
  | some table =>
    let ttl := now + (TTL_DAYS : Int) * 24 * 60 * 60
    match put table path mtime now ttl with
    | .ok _ => .ok ()
    | .error _ => .ok ()

/-- Actions of `upload` in `src/src/lib/s3Writer.ts`: the `PutObject`
attempt, the best-effort `AbortMultipartUpload` attempt with the upload
id read off the error, and the log line when that abort itself fails. -/
inductive S3Action where
  | putAttempt
  | abortAttempt (uploadId : Option String)
  | abortFailedLog (msg : String)
deriving DecidableEq, Repr

/-- Embeds `upload` from `src/src/lib/s3Writer.ts`. `put` is the
`PutObjectCommand` send; `abortSend` is the `AbortMultipartUploadCommand`
send; `uploadIdOf` reads `(error as any)?.UploadId` off a thrown error.
On put failure the abort is attempted, its own failure only logged, and
the original error is rethrown. -/
def upload (put : Except String Unit)
    (abortSend : Option String → Except String Unit)
    (uploadIdOf : String → Option String) :
    Except String Unit × List S3Action :=
  match put with
  | .ok _ => (.ok (), [.putAttempt])
  | .error e =>
    match abortSend (uploadIdOf e) with
    | .ok _ => (.error e, [.putAttempt, .abortAttempt (uploadIdOf e)])
    | .error abortError =>
      (.error e, [.putAttempt, .abortAttempt (uploadIdOf e), .abortFailedLog abortError])

/-- Discriminator for the skip outcome of a per-file closure. -/
def isSkippedOutcome : FileOutcome → Bool
  | .skipped _ => true
  | _ => false

/-- Concrete run used by the C1 witness: two regular pattern-matching
files, the first one's download fails, the second succeeds. -/
def svcC1 : Services where
  connect := .ok ()
  listFiles := fun _ =>
    .ok [⟨"UsageAcct202401010000.csv", '-'⟩, ⟨"UsageAcct202401020000.csv", '-'⟩]
  getLatestFile := .ok none
  downloadFile := fun p =>
    if p = "in/UsageAcct202401010000.csv" then .error (.sftpError "net down") else .ok [1]
  gunzip := fun _ => .ok []
  unzipOpen := fun _ => .error "unused"
  uploadFile := fun _ => .ok ()
  disconnectEnd := .ok ()

/-- Concrete run used for C2: three regular pattern-matching files, the
middle one's download fails. -/
def svcC2 : Services where
  connect := .ok ()
  listFiles := fun _ => .ok
    [⟨"UsageAcct202401010000.csv", '-'⟩, ⟨"UsageAcct202401020000.csv", '-'⟩,
     ⟨"UsageAcct202401030000.csv", '-'⟩]
  getLatestFile := .ok none
  downloadFile := fun p =>
    if p = "in/UsageAcct202401020000.csv" then .error (.sftpError "connection reset")
    else .ok [1]
  gunzip := fun _ => .ok []
  unzipOpen := fun _ => .error "unused"
  uploadFile := fun _ => .ok ()
  disconnectEnd := .ok ()

/-- Benign collaborators used where a concrete `Services` value is needed
on code paths that never consult it. -/
def svcStub : Services where
  connect := .ok ()
  listFiles := fun _ => .ok []
  getLatestFile := .ok none
  downloadFile := fun _ => .ok [1]
  gunzip := fun _ => .ok []
  unzipOpen := fun _ => .error "unused"
  uploadFile := fun _ => .ok ()
  disconnectEnd := .ok ()

/-- Concrete two-level remote tree for C9: the root holds only a
subdirectory `sub`, and the subdirectory holds one regular
pattern-matching file. A `list` call returns only the immediate entries
of the queried directory, as `ssh2-sftp-client`'s `list` does. -/
def fsC9 : String → Except Err (List FileInfo) := fun d =>
  if d = "root" then .ok [⟨"sub", 'd'⟩]
  else if d = "root/sub" then .ok [⟨"UsageAcct202401020000.csv", '-'⟩]
  else .ok []

/-- Concrete run over the two-level tree `fsC9`. -/
def svcC9 : Services where
  connect := .ok ()
  listFiles := fsC9
  getLatestFile := .ok none
  downloadFile := fun _ => .ok [1]
  gunzip := fun _ => .ok []
  unzipOpen := fun _ => .error "unused"
  uploadFile := fun _ => .ok ()
  disconnectEnd := .ok ()

/-- JavaScript string comparison is irreflexive for strict less-than. -/
theorem jsLtChars_irrefl (l : List Char) : jsLtChars l l = false := by
  induction l with
  | nil => rfl
  | cons a as ih => simp [jsLtChars, ih]

/-- JavaScript string `<=` is reflexive. -/
theorem jsLeString_refl (s : String) : jsLeString s s = true := by
  simp [jsLeString, jsLtChars_irrefl]

/-- A regular file entry never takes the silent non-file early return. -/
theorem processOneFile_ne_nonFile (svc : Services) (dir : String)
    (w : Option String) (file : FileInfo) (hreg : file.type = '-') :
    processOneFile svc dir w file ≠ .nonFile := by
  intro h
  unfold processOneFile at h
  rw [hreg] at h
  rw [if_neg (by simp)] at h
  cases hsk : shouldSkip (extractTimestamp file.name) w with
  | true => rw [hsk] at h; simp at h
  | false =>
    rw [hsk] at h
    simp only [Bool.false_eq_true, if_false] at h
    repeat' split at h
    all_goals simp at h

/-- A failed outcome always records the failing file's own name, as the
per-file catch logs `file.name` together with the thrown error. -/
theorem processOneFile_failed_name (svc : Services) (dir : String)
    (w : Option String) (file : FileInfo) (n : String) (e : Err)
    (h : processOneFile svc dir w file = .failed n e) : n = file.name := by
  unfold processOneFile at h
  split at h
  · simp at h
  · cases hsk : shouldSkip (extractTimestamp file.name) w with
    | true => rw [hsk] at h; simp at h
    | false =>
      rw [hsk] at h
      simp only [Bool.false_eq_true, if_false] at h
      repeat' split at h
      all_goals simp_all

/-- Over outcomes with no silent non-file returns, the processed, skipped
and failed counters partition the list. -/
theorem countOutcomes_total (os : List FileOutcome)
    (h : ∀ o ∈ os, o ≠ FileOutcome.nonFile) :
    countProcessed os + countSkipped os + countFailed os = os.length := by
  induction os with
  | nil => rfl
  | cons o rest ih =>
    have ho := h o (List.mem_cons_self o rest)
    have hr := ih (fun x hx => h x (List.mem_cons_of_mem o hx))
    cases o with
    | nonFile => exact absurd rfl ho
    | skipped m =>
      simp [countProcessed, countSkipped, countFailed, List.filter_cons] at hr ⊢
      omega
    | processed m =>
      simp [countProcessed, countSkipped, countFailed, List.filter_cons] at hr ⊢
      omega
    | failed nm e =>
      simp [countProcessed, countSkipped, countFailed, List.filter_cons] at hr ⊢
      omega

/-- C1: per-file failure isolation: whenever connect, list and the
latest-S3 query succeed, the run returns a summary (no per-file exception
escapes `processFiles`), every listed file receives its own outcome from
its own closure (so a failure of one file never prevents processing of
the others), and every caught per-file failure is logged with that file's
name and the thrown cause. -/
theorem processFiles_per_file_isolation (svc : Services) (sftpDir : String)
    (files : List FileInfo) (v : Option String)
    (hc : svc.connect = .ok ()) (hl : svc.listFiles sftpDir = .ok files)
    (hg : svc.getLatestFile = .ok v) :
    (∃ r : ProcessingResult, (processFiles svc sftpDir).result = .ok r) ∧
    (processFiles svc sftpDir).outcomes =
      files.map (processOneFile svc sftpDir (v.bind extractTimestamp)) ∧
    (∀ (n : String) (e : Err) (file : FileInfo),
      processOneFile svc sftpDir (v.bind extractTimestamp) file = .failed n e →
      n = file.name) := by
  unfold processFiles
  rw [hc, hl, hg]
  exact ⟨⟨_, rfl⟩, rfl, fun n e file h => processOneFile_failed_name svc sftpDir _ file n e h⟩

/-- Witness for C1 at a concrete run where the first file's download
fails: the second file is still uploaded and the run returns a summary. -/
theorem processFiles_per_file_isolation_witness :
    (processFiles svcC1 "in").outcomes =
      [FileOutcome.failed "UsageAcct202401010000.csv" (.sftpError "net down"),
       FileOutcome.processed "Successfully uploaded UsageAcct202401020000.csv to S3"] ∧
    (∃ r : ProcessingResult, (processFiles svcC1 "in").result = .ok r) ∧
    (processFiles svcC1 "in").outcomes =
      [⟨"UsageAcct202401010000.csv", '-'⟩, ⟨"UsageAcct202401020000.csv", '-'⟩].map
        (processOneFile svcC1 "in" (Option.bind none extractTimestamp)) :=
  ⟨rfl,
   (processFiles_per_file_isolation svcC1 "in"
      [⟨"UsageAcct202401010000.csv", '-'⟩, ⟨"UsageAcct202401020000.csv", '-'⟩] none
      rfl rfl rfl).1,
   (processFiles_per_file_isolation svcC1 "in"
      [⟨"UsageAcct202401010000.csv", '-'⟩, ⟨"UsageAcct202401020000.csv", '-'⟩] none
      rfl rfl rfl).2.1⟩

/-- Counterexample to C2 as stated: a run over three regular files where
the middle file's download fails still attempts all three files, but the
summary counts the failed file in neither counter, so
`processedFiles + skippedFiles = 2 + 0 ≠ 3`. -/
theorem processFiles_sum_counterexample :
    (processFiles svcC2 "in").outcomes.length = 3 ∧
    (processFiles svcC2 "in").outcomes.get? 1 =
      some (.failed "UsageAcct202401020000.csv" (.sftpError "connection reset")) ∧
    (processFiles svcC2 "in").result =
      .ok ⟨true, "Files processed successfully", 2, 0⟩ ∧
    2 + 0 ≠ 3 :=
  ⟨rfl, rfl, rfl, by decide⟩

/-- C2 (amended): for a run over N regular files in which some files
raise during fetch, normalize or write, the run still attempts and
reports an outcome for all N files, and the summary satisfies
`processedFiles + skippedFiles + failedFiles = N` — files that raised are
counted in neither `processedFiles` nor `skippedFiles`. -/
theorem processFiles_accounting (svc : Services) (sftpDir : String)
    (files : List FileInfo) (v : Option String)
    (hc : svc.connect = .ok ()) (hl : svc.listFiles sftpDir = .ok files)
    (hg : svc.getLatestFile = .ok v)
    (hreg : ∀ f ∈ files, f.type = '-') :
    ∃ r : ProcessingResult,
      (processFiles svc sftpDir).result = .ok r ∧
      (processFiles svc sftpDir).outcomes.length = files.length ∧
      r.processedFiles + r.skippedFiles +
        countFailed (processFiles svc sftpDir).outcomes = files.length := by
  unfold processFiles
  rw [hc, hl, hg]
  refine ⟨_, rfl, by simp, ?_⟩
  have hne : ∀ o ∈ files.map (processOneFile svc sftpDir (v.bind extractTimestamp)),
      o ≠ FileOutcome.nonFile := by
    intro o ho
    rcases List.mem_map.mp ho with ⟨f, hf, rfl⟩
    exact processOneFile_ne_nonFile svc sftpDir _ f (hreg f hf)
  have htot := countOutcomes_total _ hne
  simpa using htot

/-- Witness for C2 (amended) at the concrete three-file run with one
download failure: 2 processed + 0 skipped + 1 failed = 3. -/
theorem processFiles_accounting_witness :
    ∃ r : ProcessingResult,
      (processFiles svcC2 "in").result = .ok r ∧
      (processFiles svcC2 "in").outcomes.length = 3 ∧
      r.processedFiles + r.skippedFiles +
        countFailed (processFiles svcC2 "in").outcomes = 3 :=
  processFiles_accounting svcC2 "in"
    [⟨"UsageAcct202401010000.csv", '-'⟩, ⟨"UsageAcct202401020000.csv", '-'⟩,
     ⟨"UsageAcct202401030000.csv", '-'⟩] none rfl rfl rfl (by decide)

/-- C3: watermark comparison is boundary-inclusive and ordered: a regular
file whose extracted token is `t` is skipped as a duplicate exactly when
`t <= w` under JavaScript (byte-wise) string comparison against the
watermark `w`; the comparison is reflexive (equal token means duplicate,
boundary inclusive) and orders `"202401010000"` strictly before
`"202401020000"` (the second is newer). -/
theorem processOneFile_watermark_boundary (svc : Services) (sftpDir : String)
    (w : String) (file : FileInfo) (t : String)
    (hreg : file.type = '-') (ht : extractTimestamp file.name = some t) :
    (isSkippedOutcome (processOneFile svc sftpDir (some w) file) = jsLeString t w) ∧
    (jsLeString t t = true) ∧
    (jsLeString "202401010000" "202401020000" = true) ∧
    (jsLeString "202401020000" "202401010000" = false) := by
  refine ⟨?_, jsLeString_refl t, by decide, by decide⟩
  unfold processOneFile
  rw [hreg, if_neg (by simp), ht]
  cases hsk : jsLeString t w with
  | true => simp [shouldSkip, hsk, isSkippedOutcome]
  | false =>
    simp only [shouldSkip, hsk, Bool.false_eq_true, if_false]
    repeat' split
    all_goals simp [isSkippedOutcome]

/-- Witness for C3 at the spec's concrete tokens: with watermark
`202401010000`, the file carrying token `202401020000` is treated as
newer (not skipped), and the comparison facts evaluate as claimed. -/
theorem processOneFile_watermark_boundary_witness :
    (isSkippedOutcome (processOneFile svcStub "dir" (some "202401010000")
        ⟨"UsageAcct202401020000.csv", '-'⟩) = jsLeString "202401020000" "202401010000") ∧
    (jsLeString "202401020000" "202401020000" = true) ∧
    (jsLeString "202401010000" "202401020000" = true) ∧
    (jsLeString "202401020000" "202401010000" = false) :=
  processOneFile_watermark_boundary svcStub "dir" "202401010000"
    ⟨"UsageAcct202401020000.csv", '-'⟩ "202401020000" rfl (by decide)

/-- Counterexample to C4 as stated: a regular file whose name does not
match the timestamp pattern is skipped with the very same
"older than latest S3 file" log reason that a genuine watermark duplicate
receives — there is no distinct "unrecognized" reason, and the file is
reported as older than the watermark. -/
theorem processOneFile_unrecognized_same_reason :
    processOneFile svcStub "dir" (some "202401010000") ⟨"readme.txt", '-'⟩ =
      .skipped "Skipping file readme.txt - older than latest S3 file" ∧
    processOneFile svcStub "dir" (some "202401010000")
        ⟨"UsageAcct202401010000.csv", '-'⟩ =
      .skipped "Skipping file UsageAcct202401010000.csv - older than latest S3 file" :=
  ⟨rfl, rfl⟩

/-- C4 (amended): under the watermark strategy every regular file whose
filename does not match the timestamp pattern is skipped — never fetched
or uploaded — for any watermark state, but the skip is logged with the
same "older than latest S3 file" reason used for duplicates, not a
distinct unrecognized reason. -/
theorem processOneFile_unrecognized_skipped (svc : Services) (dir : String)
    (w : Option String) (file : FileInfo) (hreg : file.type = '-')
    (hnone : extractTimestamp file.name = none) :
    processOneFile svc dir w file =
      .skipped ("Skipping file " ++ file.name ++ " - older than latest S3 file") := by
  unfold processOneFile
  rw [hreg, if_neg (by simp), hnone]
  simp [shouldSkip]

/-- Witness for C4 (amended) at a concrete unmatched filename. -/
theorem processOneFile_unrecognized_skipped_witness :
    processOneFile svcStub "dir" (some "202401010000") ⟨"notes.txt", '-'⟩ =
      .skipped ("Skipping file " ++ "notes.txt" ++ " - older than latest S3 file") :=
  processOneFile_unrecognized_skipped svcStub "dir" (some "202401010000")
    ⟨"notes.txt", '-'⟩ rfl (by decide)

/-- C8: the remote session is released on every exit path — the last
event of every run, whether it ends in a summary or in a fatal connect,
list or latest-query error, is the disconnect from the `finally` block —
and a failure of the underlying `end` call is tolerated: the run's
returned or thrown value is unchanged by the disconnect outcome. -/
theorem processFiles_disconnects_every_path (svc : Services) (sftpDir : String) :
    (processFiles svc sftpDir).events.getLast? =
      some (Event.disconnected (sftpServiceDisconnect svc)) ∧
    (∀ endR : Except String Unit,
      (processFiles { svc with disconnectEnd := endR } sftpDir).result =
        (processFiles svc sftpDir).result) := by
  constructor
  · unfold processFiles
    cases svc.connect with
    | error e => rfl
    | ok u =>
      cases svc.listFiles sftpDir with
      | error e => rfl
      | ok files =>
        cases svc.getLatestFile with
        | error e => rfl
        | ok v => rfl
  · intro endR
    unfold processFiles
    dsimp only
    cases svc.connect with
    | error e => rfl
    | ok u =>
      cases svc.listFiles sftpDir with
      | error e => rfl
      | ok files =>
        cases svc.getLatestFile with
        | error e => rfl
        | ok v => rfl

/-- Counterexample to C9 as stated: over a two-level remote tree whose
root holds only a subdirectory containing a regular pattern-matching
file, the run lists only the root, produces a single silent non-file
outcome for the subdirectory entry, and processes nothing — the
subdirectory file is never enumerated, so listing is not recursive. -/
theorem processFiles_not_recursive_counterexample :
    fsC9 "root/sub" = .ok [⟨"UsageAcct202401020000.csv", '-'⟩] ∧
    isMatchingFilename "UsageAcct202401020000.csv" = true ∧
    (processFiles svcC9 "root").outcomes = [.nonFile] ∧
    (processFiles svcC9 "root").result =
      .ok ⟨true, "Files processed successfully", 0, 0⟩ ∧
    (processFiles svcC9 "root").events = [.listCalled "root", .disconnected true] :=
  ⟨rfl, by decide, rfl, rfl, rfl⟩

/-- C9 (amended): remote enumeration is single-level, not recursive:
every `list` call a run issues is on the configured root directory
itself, and a directory entry is skipped by the silent non-file early
return — it is never descended into, so files below subdirectories are
never considered. -/
theorem processFiles_single_level (svc : Services) (sftpDir : String) :
    (∀ d : String, Event.listCalled d ∈ (processFiles svc sftpDir).events → d = sftpDir) ∧
    (∀ (w : Option String) (file : FileInfo), file.type = 'd' →
      processOneFile svc sftpDir w file = .nonFile) := by
  constructor
  · intro d hd
    unfold processFiles at hd
    cases hc : svc.connect <;> rw [hc] at hd
    · simp at hd
    · cases hl : svc.listFiles sftpDir <;> rw [hl] at hd
      · simp at hd
        exact hd
      · cases hg : svc.getLatestFile <;> rw [hg] at hd
        · simp at hd
          exact hd
        · simp at hd
          exact hd
  · intro w file hdir
    unfold processOneFile
    rw [hdir]
    simp

/-- Witness for C9 (amended) at the concrete subdirectory entry of the
two-level tree: it is silently ignored. -/
theorem processFiles_single_level_witness :
    processOneFile svcC9 "root" none ⟨"sub", 'd'⟩ = .nonFile :=
  (processFiles_single_level svcC9 "root").2 none ⟨"sub", 'd'⟩ rfl

/-- C5: the exact-strategy dedup ledger is fail-open and never fatal:
`checkIdempotency` always returns normally (some Boolean, never a
rejection), a failed ledger lookup yields `false` (not a duplicate), and
`markProcessed` always returns normally, swallowing insert failures. -/
theorem checkIdempotency_markProcessed_fail_open (tableName : Option String)
    (send : String → String → Int → Except String (Option Unit))
    (put : String → String → Int → Int → Int → Except String Unit)
    (path : String) (mtime now : Int) :
    (∃ b : Bool, checkIdempotency tableName send path mtime = .ok b) ∧
    (∀ table, tableName = some table → ∀ e, send table path mtime = .error e →
      checkIdempotency tableName send path mtime = .ok false) ∧
    markProcessed tableName put path mtime now = .ok () := by
  refine ⟨?_, ?_, ?_⟩
  · cases tableName with
    | none => exact ⟨false, rfl⟩
    | some table =>
      cases h : send table path mtime with
      | ok item => exact ⟨item.isSome, by simp [checkIdempotency, h]⟩
      | error e => exact ⟨false, by simp [checkIdempotency, h]⟩
  · intro table htn e he
    subst htn
    simp [checkIdempotency, he]
  · cases tableName with
    | none => rfl
    | some table =>
      cases h : put table path mtime now (now + (TTL_DAYS : Int) * 24 * 60 * 60) with
      | ok u => simp [markProcessed, h]
      | error e => simp [markProcessed, h]

/-- Witness for C5 at a concrete failing ledger: the lookup failure is
swallowed into `ok false` and the insert failure into `ok ()`. -/
theorem checkIdempotency_markProcessed_fail_open_witness :
    checkIdempotency (some "ledger") (fun _ _ _ => .error "ddb down") "p.csv" 5 = .ok false ∧
    markProcessed (some "ledger") (fun _ _ _ _ _ => .error "ddb down") "p.csv" 5 1000 = .ok () :=
  ⟨(checkIdempotency_markProcessed_fail_open (some "ledger")
      (fun _ _ _ => .error "ddb down") (fun _ _ _ _ _ => .error "ddb down")
      "p.csv" 5 1000).2.1 "ledger" rfl "ddb down" rfl,
   (checkIdempotency_markProcessed_fail_open (some "ledger")
      (fun _ _ _ => .error "ddb down") (fun _ _ _ _ _ => .error "ddb down")
      "p.csv" 5 1000).2.2⟩

/-- C7: on a sink write failure, `upload` attempts the best-effort
multipart abort and then propagates the original error: the returned
value always equals the put outcome (so a cleanup failure never replaces
the original error), the abort is attempted exactly when the put failed,
and the abort collaborator's behavior cannot change the returned value. -/
theorem upload_abort_best_effort (put : Except String Unit)
    (abortSend : Option String → Except String Unit)
    (uploadIdOf : String → Option String) :
    (upload put abortSend uploadIdOf).1 = put ∧
    (∀ e, put = .error e →
      S3Action.abortAttempt (uploadIdOf e) ∈ (upload put abortSend uploadIdOf).2) ∧
    (∀ abortSend2 : Option String → Except String Unit,
      (upload put abortSend uploadIdOf).1 = (upload put abortSend2 uploadIdOf).1) := by
  refine ⟨?_, ?_, ?_⟩
  · cases put with
    | ok u => rfl
    | error e =>
      cases h : abortSend (uploadIdOf e) with
      | ok u => simp [upload, h]
      | error ae => simp [upload, h]
  · intro e he
    subst he
    cases h : abortSend (uploadIdOf e) with
    | ok u => simp [upload, h]
    | error ae => simp [upload, h]
  · intro abortSend2
    cases put with
    | ok u => rfl
    | error e =>
      cases h : abortSend (uploadIdOf e) with
      | ok u =>
        cases h2 : abortSend2 (uploadIdOf e) with
        | ok u2 => simp [upload, h, h2]
        | error ae2 => simp [upload, h, h2]
      | error ae =>
        cases h2 : abortSend2 (uploadIdOf e) with
        | ok u2 => simp [upload, h, h2]
        | error ae2 => simp [upload, h, h2]

/-- Witness for C7 at a concrete failing put whose abort also fails: the
original put error is the one returned and the abort was attempted. -/
theorem upload_abort_best_effort_witness :
    (upload (.error "put failed") (fun _ => .error "abort failed")
      (fun _ => some "uid")).1 = .error "put failed" ∧
    S3Action.abortAttempt (some "uid") ∈
      (upload (.error "put failed") (fun _ => .error "abort failed")
        (fun _ => some "uid")).2 :=
  ⟨(upload_abort_best_effort (.error "put failed") (fun _ => .error "abort failed")
      (fun _ => some "uid")).1,
   (upload_abort_best_effort (.error "put failed") (fun _ => .error "abort failed")
      (fun _ => some "uid")).2.1 "put failed" rfl⟩

/-- C10: the gzip magic-header check is total and safe on buffers shorter
than two bytes: it returns `false` (the length guard short-circuits the
indexing), so a `.gz`-named short buffer is routed to the archive
fallback, independent of the gzip collaborator, and reaches
`CompressionError` when the archive is unreadable. -/
theorem hasGzipMagicHeader_short_buffer (b : Buffer) (hlen : b.length < 2) :
    hasGzipMagicHeader b = false ∧
    (∀ (g1 g2 : Buffer → Except String Buffer)
        (unzipOpen : Buffer → Except String (List ZipEntry)) (name : String),
      validateAndDecompressGzipBuffer g1 unzipOpen b name =
        validateAndDecompressGzipBuffer g2 unzipOpen b name) ∧
    (∀ (g : Buffer → Except String Buffer)
        (unzipOpen : Buffer → Except String (List ZipEntry)) (name : String) (e : String),
      jsEndsWith name ".gz" = true → unzipOpen b = .error e →
      validateAndDecompressGzipBuffer g unzipOpen b name =
        .error (.compressionError ("ZIP decompression failed for " ++ name ++ ": " ++ e))) := by
  have hfalse : hasGzipMagicHeader b = false := by
    have h2 : ¬ (b.length ≥ 2) := by omega
    simp [hasGzipMagicHeader, h2]
  refine ⟨hfalse, ?_, ?_⟩
  · intro g1 g2 unzipOpen name
    by_cases hn : jsEndsWith name ".gz" = true
    · simp [validateAndDecompressGzipBuffer, hn, hfalse]
    · simp [validateAndDecompressGzipBuffer, hn]
  · intro g unzipOpen name e hn hz
    simp [validateAndDecompressGzipBuffer, hn, hfalse, hz]

/-- Witness for C10 at the one-byte buffer `[31]` named `f.gz` with an
unreadable archive: the header check is false and the result is the
archive-fallback `CompressionError`. -/
theorem hasGzipMagicHeader_short_buffer_witness :
    hasGzipMagicHeader [31] = false ∧
    validateAndDecompressGzipBuffer (fun _ => .ok []) (fun _ => .error "bad zip")
        [31] "f.gz" =
      .error (.compressionError ("ZIP decompression failed for " ++ "f.gz" ++ ": " ++ "bad zip")) :=
  ⟨(hasGzipMagicHeader_short_buffer [31] (by decide)).1,
   (hasGzipMagicHeader_short_buffer [31] (by decide)).2.2
     (fun _ => .ok []) (fun _ => .error "bad zip") "f.gz" "bad zip" (by decide) rfl⟩

/-- C6: decompression normalization is a round-trip inverse of gzip: for
an abstract gzip whose output carries the magic header and whose gunzip
inverts it, `normalize(gzip(C), "f.gz")` returns content `C` under the
name with `.gz` stripped; and on a `.gz`-named buffer that is neither
valid gzip nor a readable archive the result is a `CompressionError`
naming the file. -/
theorem validateAndDecompress_roundtrip
    (gz : Buffer → Buffer) (gunzip : Buffer → Except String Buffer)
    (unzipOpen : Buffer → Except String (List ZipEntry)) (C : Buffer)
    (hinv : gunzip (gz C) = .ok C)
    (hmagic : hasGzipMagicHeader (gz C) = true)
    (b : Buffer) (name : String)
    (hname : jsEndsWith name ".gz" = true)
    (hbadgz : hasGzipMagicHeader b = true → ∃ e, gunzip b = .error e)
    (hbadzip : hasGzipMagicHeader b = false →
      (∃ e, unzipOpen b = .error e) ∨
      (∃ es, unzipOpen b = .ok es ∧
        es.find? (fun en => en.type == "File") = none) ∨
      (∃ es en e, unzipOpen b = .ok es ∧
        es.find? (fun en => en.type == "File") = some en ∧
        en.content = .error e)) :
    validateAndDecompressGzipBuffer gunzip unzipOpen (gz C) "f.gz" = .ok ⟨C, "f"⟩ ∧
    ∃ e, validateAndDecompressGzipBuffer gunzip unzipOpen b name =
        .error (.compressionError ("Gzip decompression failed for " ++ name ++ ": " ++ e)) ∨
      validateAndDecompressGzipBuffer gunzip unzipOpen b name =
        .error (.compressionError ("ZIP decompression failed for " ++ name ++ ": " ++ e)) := by
  constructor
  · simp [validateAndDecompressGzipBuffer, hmagic, hinv]
    rfl
  · by_cases hb : hasGzipMagicHeader b = true
    · obtain ⟨e, he⟩ := hbadgz hb
      exact ⟨e, .inl (by simp [validateAndDecompressGzipBuffer, hname, hb, he])⟩
    · have hb' : hasGzipMagicHeader b = false := by
        cases h : hasGzipMagicHeader b with
        | false => rfl
        | true => exact absurd h hb
      rcases hbadzip hb' with ⟨e, he⟩ | ⟨es, hes, hfind⟩ | ⟨es, en, e, hes, hfind, hcontent⟩
      · exact ⟨e, .inr (by simp [validateAndDecompressGzipBuffer, hname, hb', he])⟩
      · exact ⟨"No file entries found in ZIP for " ++ name,
          .inr (by simp [validateAndDecompressGzipBuffer, hname, hb', hes, hfind])⟩
      · exact ⟨e, .inr (by simp [validateAndDecompressGzipBuffer, hname, hb', hes, hfind, hcontent])⟩

/-- Witness for C6 at the toy gzip pair `gz C = 0x1f :: 0x8b :: C`,
content `[7]`, and the non-gzip, non-archive buffer `[9]`. -/
theorem validateAndDecompress_roundtrip_witness :
    validateAndDecompressGzipBuffer
        (fun b => if b = [31, 139, 7] then .ok [7] else .error "invalid gzip")
        (fun _ => .error "not a zip") ((fun c => 31 :: 139 :: c) [7]) "f.gz" =
      .ok ⟨[7], "f"⟩ ∧
    ∃ e, validateAndDecompressGzipBuffer
        (fun b => if b = [31, 139, 7] then .ok [7] else .error "invalid gzip")
        (fun _ => .error "not a zip") [9] "x.gz" =
        .error (.compressionError ("Gzip decompression failed for " ++ "x.gz" ++ ": " ++ e)) ∨
      validateAndDecompressGzipBuffer
        (fun b => if b = [31, 139, 7] then .ok [7] else .error "invalid gzip")
        (fun _ => .error "not a zip") [9] "x.gz" =
        .error (.compressionError ("ZIP decompression failed for " ++ "x.gz" ++ ": " ++ e)) :=
  validateAndDecompress_roundtrip (fun c => 31 :: 139 :: c)
    (fun b => if b = [31, 139, 7] then .ok [7] else .error "invalid gzip")
    (fun _ => .error "not a zip") [7] rfl (by decide) [9] "x.gz" (by decide)
    (fun h => absurd h (by decide)) (fun _ => .inl ⟨"not a zip", rfl⟩)

end SftpToS3
